import Mathlib

/-!
Shallow embedding of the `cog_validator` crate (src/lib.rs, src/validator.rs,
src/vsi.rs).

Modelling choices, stated once:

* The raster file opened through GDAL's VSI layer is modelled as an in-memory
  byte sequence `data : List Nat` (each entry one byte).  `read_exact_at`
  (src/vsi.rs, `VSIFile::read_exact_at` with `Whence::SeekSet`) seeks to an
  absolute position and reads exactly `len` bytes; on an in-memory resource an
  absolute seek succeeds, and the subsequent `vsi_freadl` fails with
  `VSIError::ReadError` when fewer than `len` bytes remain.
* Every validator function returns `Result<bool, ValidateCOGError>` in the
  source.  We embed it as `Run Bool`, which carries the result together with
  an observable trace: the list of attempted reads (absolute position,
  length), the number of `vsi_fclosel` invocations, and the number of
  warnings printed.  Sequencing with `?` becomes `Run.bind`.
* Machine integers (`u64`, `usize`) are embedded as `Nat`.  Arithmetic that
  can leave the `u64` range in the source (the unguarded `offset - 4` in
  `_check_leader_size`, the sum `offset + byte_count` in
  `_check_trailer_bytes`, a `usize` division by a zero block dimension in
  `_validate_band`) is embedded with an explicit `RunOut.overflow` outcome:
  in the source these are Rust arithmetic program errors (a panic with debug
  assertions; a wrap to an out-of-range position in release builds).
* External GDAL collaborator calls (driver name, band geometry, block
  metadata tags, mask and overview lookup, the sidecar file list) are
  modelled as pure fields of `Dataset` / `Band`; a fallible collaborator
  lookup (`open_mask_band`, `overview(i)`) yields `Option Band`, with `none`
  turning into the propagated `GdalError` exactly as `?` does in the source.
-/

namespace CogValidator

/-- Errors of the VSI accessor, from `src/vsi.rs` (`VSIError`). -/
inductive VSIError : Type where
  | seekError
  | openError
  | readError
  | closeError
deriving DecidableEq

/-- Errors of the validator, from `src/validator.rs` (`ValidateCOGError`).
The payload of the transparent `GdalError` variant is an opaque external
type and is dropped. -/
inductive ValidateCOGError : Type where
  | gdalError
  | notGeoTIFFError
  | externalOvrError
  | notTiledError
  | emptyOffsetError (x y : Nat)
  | blockOffsetError (band_name : String) (x y : Nat)
  | leaderSizeError (band_name : String) (x y : Nat) (leader_size byte_count : Nat)
  | vsiError (e : VSIError)
  | trailerBytesError (band_name : String) (x y : Nat)
deriving DecidableEq

/-- Outcome of running a validator function: normal return, error return
through `?`, or a Rust arithmetic program error (overflow / underflow /
division by zero). -/
inductive RunOut (α : Type) : Type where
  | ok (a : α)
  | err (e : ValidateCOGError)
  | overflow
deriving DecidableEq

/-- A validator computation's result together with its observable effect
trace: attempted reads as (absolute position, length) pairs, number of
`vsi_fclosel` invocations, number of warning lines printed. -/
structure Run (α : Type) : Type where
  result : RunOut α
  reads : List (Nat × Nat)
  closes : Nat
  warns : Nat
deriving DecidableEq

def Run.pure {α : Type} (a : α) : Run α := ⟨.ok a, [], 0, 0⟩

def Run.err {α : Type} (e : ValidateCOGError) : Run α := ⟨.err e, [], 0, 0⟩

def Run.trap {α : Type} : Run α := ⟨.overflow, [], 0, 0⟩

/-- Sequencing of two validator computations: the `?` operator.  Effects of
the first computation happen before those of the second; an error or trap in
the first computation short-circuits the second. -/
def Run.bind {α β : Type} (a : Run α) (f : α → Run β) : Run β :=
  match a.result with
  | .ok v =>
    let r := f v
    ⟨r.result, a.reads ++ r.reads, a.closes + r.closes, a.warns + r.warns⟩
  | .err e => ⟨.err e, a.reads, a.closes, a.warns⟩
  | .overflow => ⟨.overflow, a.reads, a.closes, a.warns⟩

/-- Slice helper, `(data.drop off).take len`: the `len` bytes of `data` starting at
absolute position `off`. -/
def slice (data : List Nat) (off len : Nat) : List Nat :=
  (data.drop off).take len

/-- Embeds `VSIFile::read_exact_at(buf, offset, Whence::SeekSet)` from `src/vsi.rs`
on the in-memory resource `data`, with `len = buf.len()`: seek to `offset`
(absolute seek on an in-memory resource succeeds), then `vsi_freadl`, which
returns `VSIError::ReadError` unless exactly `len` bytes are available.  The
attempted read is recorded in the trace.  The validator's `?` wraps the
`VSIError` into `ValidateCOGError::VSIError`. -/
def read_exact_at (data : List Nat) (len offset : Nat) : Run (List Nat) :=
  if offset + len ≤ data.length then
    ⟨.ok (slice data offset len), [(offset, len)], 0, 0⟩
  else
    ⟨.err (.vsiError .readError), [(offset, len)], 0, 0⟩

/-- One successful `vsi_fclosel` invocation (close of the in-memory resource
succeeds), recorded in the trace. -/
def closeRun : Run Unit := ⟨.ok (), [], 1, 0⟩

/-- Embeds `byteorder::LittleEndian::read_u32` on a 4-byte buffer, then `as u64`. -/
def le32 : List Nat → Nat
  | [b0, b1, b2, b3] => b0 + 256 * b1 + 65536 * b2 + 16777216 * b3
  | _ => 0

/-- Embeds `str::parse::<u64>()` from the Rust standard library: an optional
leading `+`, then one or more ASCII decimal digits, and the value must fit
in `u64`; anything else is a parse error (`none`). -/
def parseU64 (s : String) : Option Nat :=
  let cs := match s.data with
    | '+' :: rest => rest
    | cs => cs
  match cs with
  | [] => none
  | _ =>
    (cs.foldl
      (fun acc c =>
        acc.bind fun n => if c.isDigit then some (n * 10 + (c.toNat - 48)) else none)
      (some 0)).bind
      fun n => if n < 2 ^ 64 then some n else none

/-- A GDAL raster band as seen by the validator: geometry, the TIFF-domain
`BLOCK_OFFSET_{x}_{y}` / `BLOCK_SIZE_{x}_{y}` metadata lookups
(`metadata_item` returns an optional string), the per-dataset mask flag and
mask band, and the overview chain. -/
inductive Band : Type where
  | mk (xSize ySize blockW blockH : Nat)
      (offsetTag sizeTag : Nat → Nat → Option String)
      (maskPerDataset : Bool) (mask : Option Band)
      (ovrCount : Nat) (overview : Nat → Option Band) : Band

def Band.xSize : Band → Nat
  | .mk v _ _ _ _ _ _ _ _ _ => v

def Band.ySize : Band → Nat
  | .mk _ v _ _ _ _ _ _ _ _ => v

def Band.blockW : Band → Nat
  | .mk _ _ v _ _ _ _ _ _ _ => v

def Band.blockH : Band → Nat
  | .mk _ _ _ v _ _ _ _ _ _ => v

def Band.offsetTag : Band → Nat → Nat → Option String
  | .mk _ _ _ _ v _ _ _ _ _ => v

def Band.sizeTag : Band → Nat → Nat → Option String
  | .mk _ _ _ _ _ v _ _ _ _ => v

def Band.maskPerDataset : Band → Bool
  | .mk _ _ _ _ _ _ v _ _ _ => v

def Band.mask : Band → Option Band
  | .mk _ _ _ _ _ _ _ v _ _ => v

def Band.ovrCount : Band → Nat
  | .mk _ _ _ _ _ _ _ _ v _ => v

def Band.overview : Band → Nat → Option Band
  | .mk _ _ _ _ _ _ _ _ _ v => v

/-- A GDAL dataset as seen by the validator: driver short name, sidecar file
list (`GDALGetFileList`), and band 1. -/
structure Dataset : Type where
  driver : String
  fileList : List String
  band1 : Band

/-- Embeds `_check_leader_size` from `src/validator.rs`: if `byte_count > 4`, read
the 4 bytes at `offset - 4`, interpret them as a little-endian `u32`, and
fail with `LeaderSizeError` when that value differs from `byte_count`.  The
`u64` subtraction `offset - 4` is unguarded in the source; `offset < 4` is a
Rust arithmetic program error, embedded as a trap. -/
def _check_leader_size (data : List Nat) (band_name : String)
    (x y offset byte_count : Nat) : Run Bool :=
  if byte_count > 4 then
    if offset < 4 then Run.trap
    else
      (read_exact_at data 4 (offset - 4)).bind fun buf =>
        let leader_size := le32 buf
        if leader_size ≠ byte_count then
          Run.err (.leaderSizeError band_name x y leader_size byte_count)
        else Run.pure true
  else Run.pure true

/-- Embeds `_check_trailer_bytes` from `src/validator.rs`: if `byte_count >= 4`,
read the 8 bytes at `offset + byte_count - 4` and fail with
`TrailerBytesError` when the first 4 differ from the last 4.  The `u64` sum
`offset + byte_count` is unguarded in the source; a value outside `u64` is a
Rust arithmetic program error, embedded as a trap. -/
def _check_trailer_bytes (data : List Nat) (band_name : String)
    (x y offset byte_count : Nat) : Run Bool :=
  if byte_count ≥ 4 then
    if offset + byte_count ≥ 2 ^ 64 then Run.trap
    else
      (read_exact_at data 8 (offset + byte_count - 4)).bind fun buf =>
        let left := buf.take 4
        let right := buf.drop 4
        if left ≠ right then
          Run.err (.trailerBytesError band_name x y)
        else Run.pure true
  else Run.pure true

/-- Embeds `_validate_block` from `src/validator.rs`.  The offset tag is looked up
first: a missing tag is `EmptyOffsetError`, a present tag is parsed with
`parse::<u64>().unwrap_or(0)`; then the size tag likewise.  A zero offset
marks a sparse tile and skips every check.  For a non-sparse tile the offset
is compared against the caller-supplied `last_offset`, then the leader and
trailer checks run. -/
def _validate_block (data : List Nat) (band_name : String) (band : Band)
    (x y last_offset : Nat) : Run Bool :=
  match band.offsetTag x y with
  | none => Run.err (.emptyOffsetError x y)
  | some i =>
    let offset := (parseU64 i).getD 0
    match band.sizeTag x y with
    | none => Run.err (.emptyOffsetError x y)
    | some j =>
      let byte_count := (parseU64 j).getD 0
      if offset > 0 then
        if offset < last_offset then
          Run.err (.blockOffsetError band_name x y)
        else
          (_check_leader_size data band_name x y offset byte_count).bind fun _ =>
            (_check_trailer_bytes data band_name x y offset byte_count).bind fun _ =>
              Run.pure true
      else Run.pure true

/-- Sequential `for` loop over a list of indices, short-circuiting on the
first error, as the `?` inside a Rust `for` body does. -/
def seqAll : List Nat → (Nat → Run Bool) → Run Bool
  | [], _ => Run.pure true
  | i :: is, f => (f i).bind fun _ => seqAll is f

/-- Embeds `_validate_band` from `src/validator.rs`: compute the tile-grid extents
with ceiling divisions, bind `last_offset = 0` (the binding is immutable and
is passed to `_validate_block` by value, so it stays 0 for the whole walk),
and visit tiles row-major (`y` outer, `x` inner).  A zero block dimension
makes the `usize` ceiling division a Rust arithmetic program error, embedded
as a trap. -/
def _validate_band (data : List Nat) (band_name : String) (band : Band) :
    Run Bool :=
  if band.blockH = 0 then Run.trap
  else if band.blockW = 0 then Run.trap
  else
    let yblocks := (band.ySize + band.blockH - 1) / band.blockH
    let xblocks := (band.xSize + band.blockW - 1) / band.blockW
    let last_offset : Nat := 0
    seqAll (List.range yblocks) fun y =>
      seqAll (List.range xblocks) fun x =>
        _validate_block data band_name band x y last_offset

/-- Embeds `str::ends_with` from the Rust standard library: `suffix` is a suffix of
`s` (on valid UTF-8 the byte-suffix check equals the character-suffix
check). -/
def ends_with (s suffix : String) : Bool :=
  suffix.data.isSuffixOf s.data

/-- Embeds `_check_external_ovr` from `src/validator.rs`: scan the sidecar file
list and fail with `ExternalOvrError` at the first entry ending in `.ovr`.
(The source guards the loop with `!file_list.is_empty()`, which is the same
as the loop over the empty list doing nothing.) -/
def _check_external_ovr : List String → Run Bool
  | [] => Run.pure true
  | file :: rest =>
    if ends_with file ".ovr" then Run.err .externalOvrError
    else _check_external_ovr rest

/-- Embeds `_check_main_band` from `src/validator.rs`: for a band wider or taller
than 512, fail with `NotTiledError` when the block width equals the full
image width and exceeds 1024; otherwise, when the overview count is zero,
print a warning (recorded in the trace) and succeed. -/
def _check_main_band (band : Band) (ovr_count : Nat) : Run Bool :=
  if band.xSize > 512 ∨ band.ySize > 512 then
    if band.blockW = band.xSize ∧ band.blockW > 1024 then
      Run.err .notTiledError
    else if ovr_count = 0 then ⟨.ok true, [], 0, 1⟩
    else Run.pure true
  else Run.pure true

/-- Embeds `_validate_mask_band` from `src/validator.rs`: when the band's mask
flags say per-dataset, open the mask band (`open_mask_band()?`; a failing
collaborator lookup propagates as `GdalError`) and run `_validate_band` on
it with the same band name. -/
def _validate_mask_band (data : List Nat) (band_name : String) (band : Band) :
    Run Bool :=
  if band.maskPerDataset then
    match band.mask with
    | none => Run.err .gdalError
    | some mask_band =>
      (_validate_band data band_name mask_band).bind fun _ => Run.pure true
  else Run.pure true

/-- Embeds `_validate_ovr` from `src/validator.rs`: for `i in 0..ovr_count`,
resolve overview `i` (`band.overview(i)?`; a failing collaborator lookup
propagates as `GdalError`), label it `overview_{i}`, and run the band and
mask validation on it. -/
def _validate_ovr (data : List Nat) (band : Band) (ovr_count : Nat) :
    Run Bool :=
  seqAll (List.range ovr_count) fun i =>
    match band.overview i with
    | none => Run.err .gdalError
    | some ovr_band =>
      (_validate_band data ("overview_" ++ toString i) ovr_band).bind fun _ =>
        _validate_mask_band data ("overview_" ++ toString i) ovr_band

/-- Embeds `_validate` from `src/validator.rs`: main-band structural check, sidecar
check, open the accessor (`vsi_fopenl`; `fileRes = none` models a failing
open, surfacing `VSIError::OpenError`), walk the main band, its mask, and
the overviews, then close the accessor.  Note that the only `vsi_fclosel`
call is the one after all the walks. -/
def _validate (ds : Dataset) (fileRes : Option (List Nat)) : Run Bool :=
  let main_band := ds.band1
  let ovr_count := main_band.ovrCount
  (_check_main_band main_band ovr_count).bind fun _ =>
    (_check_external_ovr ds.fileList).bind fun _ =>
      match fileRes with
      | none => Run.err (.vsiError .openError)
      | some data =>
        (_validate_band data "Main resolution image" main_band).bind fun _ =>
          (_validate_mask_band data "Main resolution image" main_band).bind fun _ =>
            (_validate_ovr data main_band ovr_count).bind fun _ =>
              closeRun.bind fun _ => Run.pure true

/-- Embeds `validate_cloudgeotiff` from `src/validator.rs`: open the dataset
(`dsRes = none` models a failing `Dataset::open`, propagating `GdalError`),
check the driver short name, then `_validate`, then `Ok(true)`. -/
def validate_cloudgeotiff (dsRes : Option Dataset)
    (fileRes : Option (List Nat)) : Run Bool :=
  match dsRes with
  | none => Run.err .gdalError
  | some ds =>
    if ds.driver ≠ "GTiff" then Run.err .notGeoTIFFError
    else (_validate ds fileRes).bind fun _ => Run.pure true

/-- Embeds `cog_validator` from `src/lib.rs`: the public entry point, a direct call
to `validate_cloudgeotiff`. -/
def cog_validator (dsRes : Option Dataset) (fileRes : Option (List Nat)) :
    Run Bool :=
  validate_cloudgeotiff dsRes fileRes

/-- Embeds `VSIFile::vsi_fclosel` from `src/vsi.rs`, over the return code of the
external `VSIFCloseL` call: a nonzero return code is `CloseError`.  The
second component counts the `VSIFCloseL` invocation. -/
def vsi_fclosel (closeRet : Int) : Except VSIError Unit × Nat :=
  (if closeRet ≠ 0 then .error .closeError else .ok (), 1)

/-- Embeds `VSIFile::vsi_fseekl` from `src/vsi.rs`, over the return codes of the
external `VSIFSeekL` and `VSIFCloseL` calls: a nonzero seek return code
triggers `self.vsi_fclosel()?` and then `Err(SeekError)`.  The second
component counts `VSIFCloseL` invocations. -/
def vsi_fseekl (seekRet closeRet : Int) : Except VSIError Unit × Nat :=
  if seekRet ≠ 0 then
    match vsi_fclosel closeRet with
    | (.error e, n) => (.error e, n)
    | (.ok _, n) => (.error .seekError, n)
  else (.ok (), 0)

/-! Helper lemmas about the sequencing combinator. -/

theorem Run.bind_result_of_ok {α β : Type} {a : Run α} {v : α} (f : α → Run β)
    (h : a.result = .ok v) : (Run.bind a f).result = (f v).result := by
  simp only [Run.bind, h]

theorem Run.bind_result_of_err {α β : Type} {a : Run α} {e : ValidateCOGError}
    (f : α → Run β) (h : a.result = .err e) :
    (Run.bind a f).result = .err e := by
  simp only [Run.bind, h]

/-! Concrete fixtures used by the claims' closed theorems and witnesses. -/

/-- A 2 by 1 pixel band with 1 by 1 blocks, so tiles (0,0) and (1,0) in
raster order, whose recorded offsets decrease: 100 then 50 (both non-sparse,
byte counts 0 so no leader or trailer reads happen). -/
def bandDecreasing : Band :=
  .mk 2 1 1 1
    (fun x y =>
      if y = 0 then
        if x = 0 then some "100" else if x = 1 then some "50" else none
      else none)
    (fun x y => if y = 0 ∧ x < 2 then some "0" else none)
    false none 0 (fun _ => none)

/-- A 1 by 1 band whose tile (0,0) records offset 2 and byte count 10. -/
def bandTinyOffset : Band :=
  .mk 1 1 1 1 (fun _ _ => some "2") (fun _ _ => some "10")
    false none 0 (fun _ => none)

/-- A 1 by 1 band with no `BLOCK_OFFSET_0_0` tag. -/
def bandNoOffsetTag : Band :=
  .mk 1 1 1 1 (fun _ _ => none) (fun _ _ => some "0")
    false none 0 (fun _ => none)

/-- A 1 by 1 band with a single sparse tile; every check passes on it. -/
def bandSparse : Band :=
  .mk 1 1 1 1 (fun _ _ => some "0") (fun _ _ => some "0")
    false none 0 (fun _ => none)

/-- A 2000 pixel wide band stored as one full-width block wider than 1024:
the `NotTiledError` shape. -/
def bandUntiled : Band :=
  .mk 2000 100 2000 100 (fun _ _ => some "0") (fun _ _ => some "0")
    false none 0 (fun _ => none)

/-- A 600 pixel wide band with 256-wide blocks and no overviews: the
advisory-warning shape of `_check_main_band`. -/
def bandAdvisory : Band :=
  .mk 600 100 256 100 (fun _ _ => some "0") (fun _ _ => some "0")
    false none 0 (fun _ => none)

/-- A GTiff dataset whose band has no offset tag: validation fails after the
accessor is opened. -/
def dsMissingTag : Dataset := ⟨"GTiff", ["x.tif"], bandNoOffsetTag⟩

/-- A GTiff dataset with an external-overview sidecar and an untiled
oversized main band. -/
def dsOvrAndUntiled : Dataset := ⟨"GTiff", ["x.tif", "x.tif.ovr"], bandUntiled⟩

/-- A GTiff dataset with an external-overview sidecar and a small, well
tiled main band. -/
def dsOvrSidecar : Dataset := ⟨"GTiff", ["x.tif", "x.tif.ovr"], bandSparse⟩

/-- A GTiff dataset that validates successfully (single sparse tile). -/
def dsValid : Dataset := ⟨"GTiff", ["x.tif"], bandSparse⟩

/-- Claim C6: `_check_main_band` fails with `NotTiledError` exactly when the
band is wider or taller than 512 and its block width equals the full image
width and exceeds 1024; when the size condition holds, the block-width
condition does not, and the overview count is zero, the check succeeds and
prints one advisory warning. -/
theorem claim_C6_main_band_check (band : Band) (ovr_count : Nat) :
    ((_check_main_band band ovr_count).result = .err .notTiledError ↔
      ((band.xSize > 512 ∨ band.ySize > 512) ∧
        band.blockW = band.xSize ∧ band.blockW > 1024))
    ∧ ((band.xSize > 512 ∨ band.ySize > 512) →
        ¬(band.blockW = band.xSize ∧ band.blockW > 1024) →
        ovr_count = 0 →
        (_check_main_band band ovr_count).result = .ok true ∧
          (_check_main_band band ovr_count).warns = 1) := by
  unfold _check_main_band
  constructor
  · split_ifs with h1 h2 h3 <;> simp_all [Run.pure, Run.err]
    omega
  · intro hl hb h0
    split_ifs
    simp_all [Run.pure]

theorem claim_C6_main_band_check_witness :
    (_check_main_band bandAdvisory 0).result = .ok true ∧
      (_check_main_band bandAdvisory 0).warns = 1 :=
  (claim_C6_main_band_check bandAdvisory 0).2 (Or.inl (by decide)) (by decide)
    rfl

/-- Claim C10: the reachability of the arithmetic error branch of the
unguarded `u64` subtraction `offset - 4` in `_check_leader_size`: a tile
whose offset tag parses to 2 (non-sparse, below 4) with byte count 10
(above 4) drives `_validate_block` into the underflow trap, with no read
performed. -/
theorem claim_C10_leader_underflow :
    (_validate_block [] "b" bandTinyOffset 0 0 0).result = .overflow ∧
      (_validate_block [] "b" bandTinyOffset 0 0 0).reads = [] := by
  decide

/-- Claim C1 (code bug): `_validate_band` walks the decreasing-offset band
(offsets 100 then 50 in raster order) and returns `Ok(true)` instead of
`BlockOffsetError`: the `last_offset` binding is initialised to 0, passed to
`_validate_block` by value, and never updated, so the `offset < last_offset`
comparison is always against 0 and can never fire.  The second conjunct
shows `_validate_block` itself would report `BlockOffsetError` at tile
(1,0) had the walker supplied the previous tile's offset 100. -/
theorem claim_C1_monotonicity_check_dead :
    (_validate_band [] "Main resolution image" bandDecreasing).result
        = .ok true
    ∧ (_validate_block [] "Main resolution image" bandDecreasing 1 0
          100).result
        = .err (.blockOffsetError "Main resolution image" 1 0) := by
  decide

/-! Slice arithmetic for the trailer comparison. -/

theorem slice_take_left (data : List Nat) (p : Nat) :
    (slice data p 8).take 4 = slice data p 4 := by
  simp [slice, List.take_take]

theorem slice_drop_left (data : List Nat) (p : Nat) :
    (slice data p 8).drop 4 = slice data (p + 4) 4 := by
  simp [slice, List.drop_take, List.drop_drop, Nat.add_comm]

/-- Evaluation of `_check_trailer_bytes` when the branch is taken, the sum
stays in `u64` range, and the 8-byte read is in bounds. -/
theorem _check_trailer_bytes_eq (data : List Nat) (bn : String)
    (x y offset bc : Nat) (h4 : 4 ≤ bc) (hov : offset + bc < 2 ^ 64)
    (hlen : offset + bc + 4 ≤ data.length) :
    _check_trailer_bytes data bn x y offset bc =
      if slice data (offset + bc - 4) 4 = slice data (offset + bc) 4 then
        ⟨.ok true, [(offset + bc - 4, 8)], 0, 0⟩
      else ⟨.err (.trailerBytesError bn x y), [(offset + bc - 4, 8)], 0, 0⟩ := by
  have hp4 : offset + bc - 4 + 4 = offset + bc := by omega
  unfold _check_trailer_bytes read_exact_at
  rw [if_pos h4, if_neg (by omega : ¬offset + bc ≥ 2 ^ 64),
    if_pos (by omega : offset + bc - 4 + 8 ≤ data.length)]
  by_cases he : slice data (offset + bc - 4) 4 = slice data (offset + bc) 4
  · rw [if_pos he]
    simp [Run.bind, Run.pure, slice_take_left, slice_drop_left, hp4, he]
  · rw [if_neg he]
    simp [Run.bind, Run.err, slice_take_left, slice_drop_left, hp4, he]

/-- Claim C5: for byte counts of at least 4 (with the position arithmetic in
`u64` range and the read in bounds), the trailer check reads exactly 8 bytes
starting at `offset + byte_count - 4`, fails with `TrailerBytesError` for
that band name and tile exactly when the first 4 of those bytes differ from
the last 4, and succeeds otherwise; byte counts below 4 undergo no trailer
check at all. -/
theorem claim_C5_trailer_check (data : List Nat) (bn : String)
    (x y offset bc : Nat) (hov : offset + bc < 2 ^ 64)
    (hlen : offset + bc + 4 ≤ data.length) :
    (bc < 4 → _check_trailer_bytes data bn x y offset bc = Run.pure true)
    ∧ (4 ≤ bc →
        (_check_trailer_bytes data bn x y offset bc).reads
            = [(offset + bc - 4, 8)]
        ∧ ((_check_trailer_bytes data bn x y offset bc).result
              = .err (.trailerBytesError bn x y)
            ↔ slice data (offset + bc - 4) 4 ≠ slice data (offset + bc) 4)
        ∧ (slice data (offset + bc - 4) 4 = slice data (offset + bc) 4 →
            (_check_trailer_bytes data bn x y offset bc).result
              = .ok true)) := by
  refine ⟨fun h4 => ?_, fun h4 => ?_⟩
  · unfold _check_trailer_bytes
    rw [if_neg (by omega)]
  · have key := _check_trailer_bytes_eq data bn x y offset bc h4 hov hlen
    by_cases he : slice data (offset + bc - 4) 4 = slice data (offset + bc) 4
    · rw [key, if_pos he]
      exact ⟨rfl, by simp [he], fun _ => rfl⟩
    · rw [key, if_neg he]
      exact ⟨rfl, by simp [he], fun hc => absurd hc he⟩

/-- A 12-byte file whose tile at offset 4 with byte count 4 has payload tail
`[1,2,3,4]` duplicated as its trailer. -/
def trailerData : List Nat := [0, 0, 0, 0, 1, 2, 3, 4, 1, 2, 3, 4]

theorem claim_C5_trailer_check_witness :
    (_check_trailer_bytes trailerData "b" 0 0 4 4).reads = [(4, 8)] ∧
      (_check_trailer_bytes trailerData "b" 0 0 4 4).result = .ok true := by
  have h :=
    (claim_C5_trailer_check trailerData "b" 0 0 4 4 (by decide) (by decide)).2
      (by decide)
  exact ⟨h.1, h.2.2 (by decide)⟩

/-- Evaluation of `_check_leader_size` when the branch is taken, the offset
is at least 4, and the 4-byte read is in bounds. -/
theorem _check_leader_size_eq (data : List Nat) (bn : String)
    (x y offset bc : Nat) (hbc : 4 < bc) (hoff : 4 ≤ offset)
    (hlen : offset ≤ data.length) :
    _check_leader_size data bn x y offset bc =
      if le32 (slice data (offset - 4) 4) = bc then
        ⟨.ok true, [(offset - 4, 4)], 0, 0⟩
      else
        ⟨.err (.leaderSizeError bn x y (le32 (slice data (offset - 4) 4)) bc),
          [(offset - 4, 4)], 0, 0⟩ := by
  unfold _check_leader_size read_exact_at
  rw [if_pos hbc, if_neg (by omega : ¬offset < 4),
    if_pos (by omega : offset - 4 + 4 ≤ data.length)]
  by_cases he : le32 (slice data (offset - 4) 4) = bc
  · rw [if_pos he]
    simp [Run.bind, Run.pure, he]
  · rw [if_neg he]
    simp [Run.bind, Run.err, he]

/-- Claim C4 (counterexample to the claim as stated): a non-sparse tile with
offset 2 (positive, below 4) and byte count 10 (above 4) performs no read at
all and hits the `u64` underflow trap of the unguarded `offset - 4`, so no
4-byte read at `offset - 4` happens and no `LeaderSizeError` can be
raised. -/
theorem claim_C4_counterexample :
    (_check_leader_size [] "b" 0 0 2 10).reads = [] ∧
      (_check_leader_size [] "b" 0 0 2 10).result = .overflow := by
  decide

/-- Claim C4 as amended: for a tile with byte count above 4 whose offset is
at least 4 (so the unguarded `u64` subtraction cannot underflow) and whose
read is in bounds, the leader check reads exactly 4 bytes at `offset - 4`,
interprets them as a little-endian unsigned 32-bit integer, fails with
`LeaderSizeError` carrying that leader value and the byte count exactly when
they differ, and succeeds otherwise; byte counts of at most 4 undergo no
leader check. -/
theorem claim_C4_leader_check (data : List Nat) (bn : String)
    (x y offset bc : Nat) (hoff : 4 ≤ offset) (hlen : offset ≤ data.length) :
    (bc ≤ 4 → _check_leader_size data bn x y offset bc = Run.pure true)
    ∧ (4 < bc →
        (_check_leader_size data bn x y offset bc).reads = [(offset - 4, 4)]
        ∧ ((_check_leader_size data bn x y offset bc).result
              = .err (.leaderSizeError bn x y
                  (le32 (slice data (offset - 4) 4)) bc)
            ↔ le32 (slice data (offset - 4) 4) ≠ bc)
        ∧ (le32 (slice data (offset - 4) 4) = bc →
            (_check_leader_size data bn x y offset bc).result = .ok true)) := by
  refine ⟨fun h4 => ?_, fun h4 => ?_⟩
  · unfold _check_leader_size
    rw [if_neg (by omega)]
  · have key := _check_leader_size_eq data bn x y offset bc h4 hoff hlen
    by_cases he : le32 (slice data (offset - 4) 4) = bc
    · rw [key, if_pos he]
      exact ⟨rfl, by simp [he], fun _ => rfl⟩
    · rw [key, if_neg he]
      exact ⟨rfl, by simp [he], fun hc => absurd hc he⟩

/-- A 9-byte file whose 4 bytes before offset 4 decode to the little-endian
value 6, one more than the tile's byte count 5. -/
def leaderData : List Nat := [6, 0, 0, 0, 1, 2, 3, 4, 5]

theorem claim_C4_leader_check_witness :
    (_check_leader_size leaderData "b" 0 0 4 5).reads = [(0, 4)] ∧
      (_check_leader_size leaderData "b" 0 0 4 5).result
        = .err (.leaderSizeError "b" 0 0 6 5) := by
  have h :=
    (claim_C4_leader_check leaderData "b" 0 0 4 5 (by decide) (by decide)).2
      (by decide)
  refine ⟨h.1, ?_⟩
  have := h.2.1.mpr (by decide)
  simpa using this

/-- Claim C2 (code bug): with the accessor successfully opened (the file
resource is present), a validation failure inside the band walk returns
early through `?` and never reaches the single `vsi_fclosel` call at the end
of `_validate`, so the close count on that exit path is 0; on the success
path the accessor is closed exactly once. -/
theorem claim_C2_close_skipped_on_failure :
    (_validate dsMissingTag (some [])).result = .err (.emptyOffsetError 0 0)
    ∧ (_validate dsMissingTag (some [])).closes = 0
    ∧ (_validate dsValid (some [])).result = .ok true
    ∧ (_validate dsValid (some [])).closes = 1 := by
  decide

/-- Claim C3 (counterexample to the claim as stated): a dataset whose
sidecar file list contains an entry ending in `.ovr` but whose main band is
oversized and untiled fails with `NotTiledError`, not `ExternalOvrError`:
`_validate` runs `_check_main_band` before `_check_external_ovr`, so the
walker-level `NotTiledError` takes precedence over the sidecar check. -/
theorem claim_C3_counterexample :
    (_validate dsOvrAndUntiled (some [])).result = .err .notTiledError := by
  decide

/-- Sidecar-list scan: any entry ending in `.ovr` makes
`_check_external_ovr` fail with `ExternalOvrError`. -/
theorem _check_external_ovr_err (l : List String)
    (h : ∃ f ∈ l, ends_with f ".ovr" = true) :
    (_check_external_ovr l).result = .err .externalOvrError := by
  induction l with
  | nil => simp at h
  | cons a rest ih =>
    unfold _check_external_ovr
    by_cases ha : ends_with a ".ovr" = true
    · rw [if_pos ha]
      rfl
    · rw [if_neg ha]
      rcases h with ⟨f, hf, hovr⟩
      rcases List.mem_cons.mp hf with rfl | hmem
      · exact absurd hovr ha
      · exact ih ⟨f, hmem, hovr⟩

/-- Claim C3 as amended: when the main-band structural check passes, a
sidecar file list containing an entry ending in `.ovr` makes the run fail
with `ExternalOvrError`, whatever the accessor resource holds — the sidecar
check runs before the accessor is opened and before any block walking, so
`ExternalOvrError` takes precedence over every block-level failure; but the
main-band structural check runs first, so `NotTiledError` takes precedence
over `ExternalOvrError`. -/
theorem claim_C3_sidecar_precedence (ds : Dataset) (fr : Option (List Nat))
    (h1 : (_check_main_band ds.band1 ds.band1.ovrCount).result = .ok true)
    (h2 : ∃ f ∈ ds.fileList, ends_with f ".ovr" = true) :
    (_validate ds fr).result = .err .externalOvrError := by
  unfold _validate
  rw [Run.bind_result_of_ok _ h1]
  exact Run.bind_result_of_err _ (_check_external_ovr_err ds.fileList h2)

theorem claim_C3_sidecar_precedence_witness :
    (_validate dsOvrSidecar none).result = .err .externalOvrError :=
  claim_C3_sidecar_precedence dsOvrSidecar none (by decide) (by decide)

/-- Claim C7 (counterexample to the claim as stated): when the underlying
seek fails (nonzero return code) and the close attempted by `vsi_fseekl`
itself fails, the error surfaced to the caller is `CloseError`, not
`SeekError` (the close is still invoked exactly once). -/
theorem claim_C7_counterexample :
    (vsi_fseekl (-1) (-1)).1 = Except.error VSIError.closeError ∧
      (vsi_fseekl (-1) (-1)).2 = 1 :=
  ⟨rfl, rfl⟩

/-- Claim C7 as amended: whenever the underlying seek returns nonzero, the
close operation is invoked exactly once before the error surfaces; the
surfaced error is `SeekError` when that close succeeds, and `CloseError`
when the close itself fails. -/
theorem claim_C7_seek_failure_closes (seekRet closeRet : Int)
    (h : seekRet ≠ 0) :
    (vsi_fseekl seekRet closeRet).2 = 1
    ∧ (closeRet = 0 →
        (vsi_fseekl seekRet closeRet).1 = .error .seekError)
    ∧ (closeRet ≠ 0 →
        (vsi_fseekl seekRet closeRet).1 = .error .closeError) := by
  unfold vsi_fseekl vsi_fclosel
  rw [if_pos h]
  by_cases hc : closeRet ≠ 0
  · rw [if_pos hc]
    exact ⟨rfl, fun h0 => absurd h0 hc, fun _ => rfl⟩
  · rw [if_neg hc]
    exact ⟨rfl, fun _ => rfl, fun hne => absurd (by omega : closeRet = 0) hne⟩

theorem claim_C7_seek_failure_closes_witness :
    (vsi_fseekl (-1) 0).2 = 1 ∧
      (vsi_fseekl (-1) 0).1 = .error .seekError := by
  have h := claim_C7_seek_failure_closes (-1) 0 (by decide)
  exact ⟨h.1, h.2.1 rfl⟩

/-! Machinery for claim C8: every `Ok` value produced anywhere in the
validator call graph is `true`. -/

/-- The computation can only return `Ok(true)`, never `Ok(false)`. -/
def ResultOkTrue (r : Run Bool) : Prop :=
  ∀ b : Bool, r.result = .ok b → b = true

theorem okTrue_okLit (rs : List (Nat × Nat)) (c w : Nat) :
    ResultOkTrue ⟨.ok true, rs, c, w⟩ := by
  intro b h
  cases h
  rfl

theorem okTrue_pure : ResultOkTrue (Run.pure true) :=
  okTrue_okLit [] 0 0

theorem okTrue_err (e : ValidateCOGError) : ResultOkTrue (Run.err e) := by
  intro b h
  cases h

theorem okTrue_trap : ResultOkTrue (Run.trap : Run Bool) := by
  intro b h
  cases h

theorem okTrue_bind {α : Type} (a : Run α) (f : α → Run Bool)
    (h : ∀ v, ResultOkTrue (f v)) : ResultOkTrue (Run.bind a f) := by
  intro b hb
  unfold Run.bind at hb
  cases hv : a.result with
  | ok v =>
    rw [hv] at hb
    exact h v b hb
  | err e =>
    rw [hv] at hb
    cases hb
  | overflow =>
    rw [hv] at hb
    cases hb

theorem okTrue_check_leader_size (data : List Nat) (bn : String)
    (x y o bc : Nat) : ResultOkTrue (_check_leader_size data bn x y o bc) := by
  unfold _check_leader_size
  split_ifs
  · exact okTrue_trap
  · refine okTrue_bind _ _ fun v => ?_
    dsimp only
    split_ifs
    · exact okTrue_err _
    · exact okTrue_pure
  · exact okTrue_pure

theorem okTrue_check_trailer_bytes (data : List Nat) (bn : String)
    (x y o bc : Nat) :
    ResultOkTrue (_check_trailer_bytes data bn x y o bc) := by
  unfold _check_trailer_bytes
  split_ifs
  · exact okTrue_trap
  · refine okTrue_bind _ _ fun v => ?_
    dsimp only
    split_ifs
    · exact okTrue_err _
    · exact okTrue_pure
  · exact okTrue_pure

theorem okTrue_validate_block (data : List Nat) (bn : String) (band : Band)
    (x y lo : Nat) : ResultOkTrue (_validate_block data bn band x y lo) := by
  unfold _validate_block
  cases band.offsetTag x y with
  | none => exact okTrue_err _
  | some i =>
    cases band.sizeTag x y with
    | none => exact okTrue_err _
    | some j =>
      dsimp only
      split_ifs
      · exact okTrue_err _
      · exact okTrue_bind _ _ fun _ =>
          okTrue_bind _ _ fun _ => okTrue_pure
      · exact okTrue_pure

theorem okTrue_seqAll (l : List Nat) (f : Nat → Run Bool)
    (_h : ∀ i, ResultOkTrue (f i)) : ResultOkTrue (seqAll l f) := by
  induction l with
  | nil => exact okTrue_pure
  | cons a rest ih =>
    exact okTrue_bind _ _ fun _ => ih

theorem okTrue_validate_band (data : List Nat) (bn : String) (band : Band) :
    ResultOkTrue (_validate_band data bn band) := by
  unfold _validate_band
  split_ifs
  · exact okTrue_trap
  · exact okTrue_trap
  · exact okTrue_seqAll _ _ fun y =>
      okTrue_seqAll _ _ fun x => okTrue_validate_block data bn band x y 0

theorem okTrue_check_external_ovr (l : List String) :
    ResultOkTrue (_check_external_ovr l) := by
  induction l with
  | nil => exact okTrue_pure
  | cons a rest ih =>
    unfold _check_external_ovr
    split_ifs
    · exact okTrue_err _
    · exact ih

theorem okTrue_check_main_band (band : Band) (c : Nat) :
    ResultOkTrue (_check_main_band band c) := by
  unfold _check_main_band
  split_ifs
  · exact okTrue_err _
  · exact okTrue_okLit [] 0 1
  · exact okTrue_pure
  · exact okTrue_pure

theorem okTrue_validate_mask_band (data : List Nat) (bn : String)
    (band : Band) : ResultOkTrue (_validate_mask_band data bn band) := by
  unfold _validate_mask_band
  split_ifs
  · cases band.mask with
    | none => exact okTrue_err _
    | some m => exact okTrue_bind _ _ fun _ => okTrue_pure
  · exact okTrue_pure

theorem okTrue_validate_ovr (data : List Nat) (band : Band) (c : Nat) :
    ResultOkTrue (_validate_ovr data band c) := by
  unfold _validate_ovr
  refine okTrue_seqAll _ _ fun i => ?_
  cases band.overview i with
  | none => exact okTrue_err _
  | some ovr_band =>
    exact okTrue_bind _ _ fun _ => okTrue_validate_mask_band _ _ _

theorem okTrue_validate (ds : Dataset) (fr : Option (List Nat)) :
    ResultOkTrue (_validate ds fr) := by
  unfold _validate
  refine okTrue_bind _ _ fun _ => okTrue_bind _ _ fun _ => ?_
  cases fr with
  | none => exact okTrue_err _
  | some data =>
    exact okTrue_bind _ _ fun _ => okTrue_bind _ _ fun _ =>
      okTrue_bind _ _ fun _ => okTrue_bind _ _ fun _ => okTrue_pure

/-- Claim C8: the public entry point never returns a false success: any
`Ok` value it returns is `true`, so failure is communicated exclusively
through the error variant. -/
theorem claim_C8_no_false_success (dsRes : Option Dataset)
    (fileRes : Option (List Nat)) (b : Bool)
    (h : (cog_validator dsRes fileRes).result = .ok b) : b = true := by
  revert h
  unfold cog_validator validate_cloudgeotiff
  cases dsRes with
  | none => exact okTrue_err _ b
  | some ds =>
    dsimp only
    split_ifs
    · exact okTrue_err _ b
    · exact okTrue_bind _ _ (fun _ => okTrue_pure) b

theorem claim_C8_no_false_success_witness :
    (cog_validator (some dsValid) (some [])).result = .ok true
      ∧ true = true :=
  ⟨by decide,
    claim_C8_no_false_success (some dsValid) (some []) true (by decide)⟩

/-- Claim C9: tag handling in `_validate_block`.  (a) A present but
unparseable `BLOCK_OFFSET` tag is treated as offset 0: the tile counts as
sparse and is skipped entirely (no reads, no error, no effect).  (b) An
absent `BLOCK_OFFSET` tag fails with `EmptyOffsetError{x,y}`.  (c) An
absent `BLOCK_SIZE` tag fails with `EmptyOffsetError{x,y}` as well.  (d) A
present but unparseable `BLOCK_SIZE` tag is treated as byte count 0, so a
non-sparse tile that passes the offset-order comparison undergoes neither
the leader nor the trailer check and the block validation succeeds with no
reads. -/
theorem claim_C9_tag_parsing (data : List Nat) (bn : String) (x y lo : Nat) :
    (∀ (band : Band) (s t : String),
      band.offsetTag x y = some s → parseU64 s = none →
      band.sizeTag x y = some t →
      _validate_block data bn band x y lo = Run.pure true)
    ∧ (∀ band : Band, band.offsetTag x y = none →
        (_validate_block data bn band x y lo).result
          = .err (.emptyOffsetError x y))
    ∧ (∀ (band : Band) (s : String), band.offsetTag x y = some s →
        band.sizeTag x y = none →
        (_validate_block data bn band x y lo).result
          = .err (.emptyOffsetError x y))
    ∧ (∀ (band : Band) (s t : String) (o : Nat),
        band.offsetTag x y = some s → parseU64 s = some o →
        band.sizeTag x y = some t → parseU64 t = none → lo ≤ o →
        _validate_block data bn band x y lo = Run.pure true) := by
  refine ⟨?_, ?_, ?_, ?_⟩
  · intro band s t hs hp ht
    unfold _validate_block
    rw [hs, ht]
    dsimp only
    rw [hp]
    rfl
  · intro band hs
    unfold _validate_block
    rw [hs]
    rfl
  · intro band s hs ht
    unfold _validate_block
    rw [hs]
    dsimp only
    rw [ht]
    rfl
  · intro band s t o hs hp ht hq hle
    unfold _validate_block
    rw [hs]
    dsimp only
    rw [ht]
    dsimp only
    rw [hp, hq]
    dsimp only [Option.getD_some, Option.getD_none]
    by_cases ho : o > 0
    · rw [if_pos ho, if_neg (by omega : ¬o < lo)]
      unfold _check_leader_size _check_trailer_bytes
      rw [if_neg (by omega : ¬(0 : Nat) > 4),
        if_neg (by omega : ¬(0 : Nat) ≥ 4)]
      rfl
    · rw [if_neg ho]

/-- A 1 by 1 band whose offset tag is present but not a number. -/
def bandBadOffset : Band :=
  .mk 1 1 1 1 (fun _ _ => some "abc") (fun _ _ => some "5")
    false none 0 (fun _ => none)

/-- A 1 by 1 band whose offset tag is a number but whose size tag is
absent. -/
def bandNoSizeTag : Band :=
  .mk 1 1 1 1 (fun _ _ => some "1") (fun _ _ => none)
    false none 0 (fun _ => none)

/-- A 1 by 1 band with a positive offset and an unparseable size tag. -/
def bandBadSize : Band :=
  .mk 1 1 1 1 (fun _ _ => some "7") (fun _ _ => some "xyz")
    false none 0 (fun _ => none)

theorem claim_C9_tag_parsing_witness :
    _validate_block [] "b" bandBadOffset 0 0 0 = Run.pure true
    ∧ (_validate_block [] "b" bandNoOffsetTag 0 0 0).result
        = .err (.emptyOffsetError 0 0)
    ∧ (_validate_block [] "b" bandNoSizeTag 0 0 0).result
        = .err (.emptyOffsetError 0 0)
    ∧ _validate_block [] "b" bandBadSize 0 0 0 = Run.pure true := by
  have h := claim_C9_tag_parsing [] "b" 0 0 0
  exact ⟨h.1 bandBadOffset "abc" "5" rfl (by decide) rfl,
    h.2.1 bandNoOffsetTag rfl,
    h.2.2.1 bandNoSizeTag "1" rfl rfl,
    h.2.2.2 bandBadSize "7" "xyz" 7 rfl (by decide) rfl (by decide)
      (by decide)⟩

end CogValidator
